import Mathlib

/-!
Verification of `scripts/update_stocks.py` (bubbleburst repository).

Shallow embedding conventions:
* Python floats are modelled as exact rationals (`ℚ`).  `round(x, 2)` is
  modelled by `pyRound2`, banker's rounding (round half to even) at two
  decimal places, in exact rational arithmetic.
* Dates are modelled as integer day numbers (days since an arbitrary epoch);
  an ISO-midnight-UTC timestamp for a date is identified with that day
  number, and `timedelta(days=d)` / `timedelta(weeks=w)` become `+ d` /
  `+ 7 * w`.  The `lastUpdated` wall-clock timestamp is an opaque `ℤ`.
* `math.sin(day / 20) * 0.01` and the stream of `random.uniform(-0.004,
  0.004)` draws produced by the generator seeded with `random.seed(1337)`
  are fixed deterministic functions of their position; they are carried as
  an explicit environment `SynthEnv` (one fixed, unknown, environment
  corresponds to the real run).  Every claim proved below holds for every
  such environment, and the fixed seed means every run uses the same one.
* The `yfinance` provider is modelled as a function from a symbol to the
  data the script reads for that ticker (`TickerData`); `yf is None` is an
  `Option` on the provider.
-/

set_option maxRecDepth 8000

/-- Round a rational to the nearest integer, ties to even: the semantics of
Python 3 `round` (banker's rounding), in exact arithmetic. -/
def roundHalfEven (q : ℚ) : ℤ :=
  if q - ⌊q⌋ = 1 / 2 then (if Even ⌊q⌋ then ⌊q⌋ else ⌊q⌋ + 1) else round q

/-- Model of Python `round(x, 2)`: banker's rounding at two decimal places,
in exact rational arithmetic. -/
def pyRound2 (q : ℚ) : ℚ := (roundHalfEven (q * 100) : ℚ) / 100

/-- Model of Python `a or b` on optional numbers: `None` and `0` are falsy. -/
def pyOr (a b : Option ℚ) : Option ℚ :=
  match a with
  | none => b
  | some x => if x = 0 then b else some x

/-- A record of `dataset["series"][symbol]` (both the sample and the live
builder produce this shape; `sharesOutstanding` and `marketCap` are the
nullable fields). -/
structure SeriesRecord where
  symbol : String
  timestamps : List ℤ
  closes : List ℚ
  sharesOutstanding : Option ℚ
  marketCap : Option ℚ
  deriving DecidableEq, Inhabited

/-- A record of `dataset["sentiment"][symbol]`. -/
structure SentimentRecord where
  changePct5d : ℚ
  changePct30d : ℚ
  deriving DecidableEq, Inhabited

/-- The `dataset["metadata"]` object: `note` is present in the sample
dataset and absent from the live one, hence an `Option`. -/
structure Metadata where
  source : String
  note : Option String
  deriving DecidableEq, Inhabited

/-- One `{x, y}` point of a bagholder series. -/
structure BagPoint where
  x : ℤ
  y : ℚ
  deriving DecidableEq, Inhabited

/-- One entry of `dataset["bagholders"]`. -/
structure BagholderSeries where
  symbol : String
  label : String
  color : String
  data : List BagPoint
  deriving DecidableEq, Inhabited

/-- The whole dataset written by the script.  Python dicts with statically
known insertion order are modelled as association lists. -/
structure Dataset where
  lastUpdated : ℤ
  series : List (String × SeriesRecord)
  sentiment : List (String × SentimentRecord)
  metadata : Metadata
  bagholders : List BagholderSeries
  deriving DecidableEq, Inhabited

/-- The `TICKERS` constant: primary symbols with their sample base prices. -/
def TICKERS : List (String × ℚ) :=
  [("NVDA", 140), ("MSFT", 350), ("GOOGL", 135), ("META", 300), ("AMZN", 120)]

/-- The value attached to a symbol in `BAGHOLDER_TICKERS`. -/
structure BagInfo where
  base : ℚ
  color : String
  label : String
  deriving DecidableEq, Inhabited

/-- The `BAGHOLDER_TICKERS` constant. -/
def BAGHOLDER_TICKERS : List (String × BagInfo) :=
  [("CRWV", ⟨85 / 10, "#ef4444", "CoreWeave"⟩),
   ("NBIS", ⟨12, "#22c55e", "Nebius"⟩)]

/-- Embedding of `_bagholder_downtrend(symbol, base_price, today)` (the
`symbol` argument is unused by the Python body and dropped).  The loop
`for weeks_ago in range(6, -1, -1)` is rendered as a map over the position
`k = 0..6`, with `weeks_ago = 6 - k`. -/
def bagholderDowntrend (base_price : ℚ) (today : ℤ) : List BagPoint :=
  (List.range 7).map (fun k =>
    let weeks_ago : ℕ := 6 - k
    let date : ℤ := today - 7 * weeks_ago
    let discount : ℚ := 5 / 100 * ((6 : ℚ) - weeks_ago)
    let price : ℚ := max (1 / 2) (base_price * (1 - discount))
    { x := date, y := pyRound2 price })

/-- Embedding of `_change_pct(series, days)`.  Python's negative indices
`series[-(days + 1)]` and `series[-1]` become `getD` at `length - (days + 1)`
and `length - 1`, which is exactly their meaning when `length > days`. -/
def change_pct (series : List ℚ) (days : ℕ) : ℚ :=
  if series.length ≤ days then 0
  else
    let past := series.getD (series.length - (days + 1)) 0
    let latest := series.getD (series.length - 1) 0
    if past = 0 then 0
    else pyRound2 ((latest - past) / past * 100)

/-- The deterministic per-run environment of `_build_sample_dataset`:
`seasonal day` stands for `math.sin(day / 20) * 0.01` and `noise j` for the
j-th draw of `random.uniform(-0.004, 0.004)` after `random.seed(1337)`.
Both are fixed functions (transcendental floats are not representable
exactly, so they are kept abstract); the fixed seed means every run of the
synthesizer sees the same environment. -/
structure SynthEnv where
  seasonal : ℕ → ℚ
  noise : ℕ → ℚ

/-- The constant `drift = 0.0008` of the sample price walk. -/
def drift : ℚ := 8 / 10000

/-- One iteration of the sample price loop for primary symbol number `i`:
clamp the multiplicative step at 1.0 and append the 2-decimal rounding of
the running price.  Noise draws are consumed sequentially across symbols,
so symbol `i`, day `day` reads draw `i * 366 + day`. -/
def primaryStep (env : SynthEnv) (i : ℕ) (st : ℚ × List ℚ) (day : ℕ) : ℚ × List ℚ :=
  let price := max 1 (st.1 * (1 + env.seasonal day + drift + env.noise (i * 366 + day)))
  (price, st.2 ++ [pyRound2 price])

/-- The 366 recorded closing prices of primary symbol number `i` with base
price `base` in `_build_sample_dataset`. -/
def primaryPrices (env : SynthEnv) (i : ℕ) (base : ℚ) : List ℚ :=
  ((List.range 366).foldl (primaryStep env i) (base, [])).2

/-- The 366 recorded timestamps of a primary sample series: day `day` of
the walk is `start + day` where `start = today - 365`. -/
def primaryTimestamps (today : ℤ) : List ℤ :=
  (List.range 366).map (fun (day : ℕ) => today - 365 + (day : ℤ))

/-- The `shares_outstanding` constant of the sample builder:
`24.5e9 if symbol == "NVDA" else 10e9`. -/
def sampleSharesOutstanding (symbol : String) : ℚ :=
  if symbol = "NVDA" then 24500000000 else 10000000000

/-- The series record built for primary symbol number `i` by
`_build_sample_dataset`. -/
def sampleSeriesRecord (env : SynthEnv) (i : ℕ) (symbol : String) (base : ℚ)
    (today : ℤ) : SeriesRecord :=
  let prices := primaryPrices env i base
  let shares := sampleSharesOutstanding symbol
  { symbol := symbol
    timestamps := primaryTimestamps today
    closes := prices
    sharesOutstanding := some shares
    marketCap := some (pyRound2 (prices.getLast?.getD 0 * shares)) }

/-- Embedding of `_build_sample_dataset()`.  `today` is
`datetime.now(timezone.utc).date()` and `now` the `lastUpdated` wall-clock
stamp; the `if symbol == "NVDA"` sentiment insertion is rendered as a
filter over the same enumerated ticker list the series loop walks. -/
def buildSampleDataset (env : SynthEnv) (today : ℤ) (now : ℤ) : Dataset :=
  { lastUpdated := now
    series := TICKERS.enum.map (fun p =>
      (p.2.1, sampleSeriesRecord env p.1 p.2.1 p.2.2 today))
    sentiment := (TICKERS.enum.filter (fun p => p.2.1 = "NVDA")).map (fun p =>
      (p.2.1,
        { changePct5d := change_pct (primaryPrices env p.1 p.2.2) 5
          changePct30d := change_pct (primaryPrices env p.1 p.2.2) 30 }))
    metadata :=
      { source := "sample"
        note := some "Generated offline; GitHub Actions will replace with live data when network is available." }
    bagholders := BAGHOLDER_TICKERS.map (fun p =>
      { symbol := p.1
        label := p.2.label
        color := p.2.color
        data := bagholderDowntrend p.2.base today }) }

/-- The `fast_info` attributes the script reads (each may be missing). -/
structure FastInfo where
  shares_outstanding : Option ℚ
  shares : Option ℚ
  deriving DecidableEq, Inhabited

/-- What the live fetch reads for one ticker: the raw one-year history rows
(`none` closes are NaN rows that `dropna` removes), the optional
`fast_info` object, and `info.get("sharesOutstanding")`. -/
structure TickerData where
  rows : List (ℤ × Option ℚ)
  fast_info : Option FastInfo
  infoSharesOutstanding : Option ℚ
  deriving DecidableEq, Inhabited

/-- The `all_symbols` list of `_fetch_live_data`. -/
def all_symbols : List String :=
  TICKERS.map Prod.fst ++ BAGHOLDER_TICKERS.map Prod.fst

/-- The per-symbol `(timestamp, close)` pairs the live fetch keeps:
`history["Close"].dropna().round(2)` together with its index. -/
def liveRows (provider : String → TickerData) (symbol : String) : List (ℤ × ℚ) :=
  (provider symbol).rows.filterMap (fun r => r.2.map (fun v => (r.1, pyRound2 v)))

/-- The shares-outstanding lookup chain of the live fetch: `fast_info`
attributes first (Python `or`, so `0` falls through), then
`info.get("sharesOutstanding")`. -/
def liveShares (td : TickerData) : Option ℚ :=
  pyOr
    (match td.fast_info with
     | none => none
     | some fi => pyOr fi.shares_outstanding fi.shares)
    td.infoSharesOutstanding

/-- The live `market_cap`: `round(prices[-1] * shares, 2) if shares else
None` (Python would raise on `prices[-1]` if every close were NaN; the
model reads a default 0 there, a state no claim touches). -/
def liveMarketCap (prices : List ℚ) (shares : Option ℚ) : Option ℚ :=
  match shares with
  | none => none
  | some s => if s = 0 then none else some (pyRound2 (prices.getLast?.getD 0 * s))

/-- The series record the live fetch builds for a primary symbol. -/
def liveSeriesRecord (provider : String → TickerData) (symbol : String) : SeriesRecord :=
  let rows := liveRows provider symbol
  let shares := liveShares (provider symbol)
  { symbol := symbol
    timestamps := rows.map Prod.fst
    closes := rows.map Prod.snd
    sharesOutstanding := shares
    marketCap := liveMarketCap (rows.map Prod.snd) shares }

/-- The dataset `_fetch_live_data` returns when no symbol has an empty
history: primary symbols go to `series` (with the NVDA sentiment), the
bagholder symbols to `bagholders`, zipping timestamps with prices. -/
def liveDataset (provider : String → TickerData) (now : ℤ) : Dataset :=
  { lastUpdated := now
    series := (TICKERS.map Prod.fst).map (fun s => (s, liveSeriesRecord provider s))
    sentiment := ((TICKERS.map Prod.fst).filter (fun s => s = "NVDA")).map (fun s =>
      (s,
        { changePct5d := change_pct ((liveRows provider s).map Prod.snd) 5
          changePct30d := change_pct ((liveRows provider s).map Prod.snd) 30 }))
    metadata := { source := "yfinance", note := none }
    bagholders := BAGHOLDER_TICKERS.map (fun p =>
      { symbol := p.1
        label := p.2.label
        color := p.2.color
        data := (liveRows provider p.1).map (fun r => { x := r.1, y := r.2 }) }) }

/-- Embedding of `_fetch_live_data()`: `None` when `yfinance` is absent;
the loop's early `return None` on `history.empty` for any symbol is the
`any` guard (the dataset is only returned once every symbol passed). -/
def fetchLiveData (yf : Option (String → TickerData)) (now : ℤ) : Option Dataset :=
  match yf with
  | none => none
  | some provider =>
      if all_symbols.any (fun s => (provider s).rows.isEmpty) then none
      else some (liveDataset provider now)

namespace Script

/-- Embedding of `main()` up to the dataset passed to `write_dataset`:
demo flag short-circuits to the sample builder, otherwise the live fetch
runs and a `None` result falls back to the sample builder. -/
def main (demo : Bool) (yf : Option (String → TickerData)) (env : SynthEnv)
    (today : ℤ) (now : ℤ) : Dataset :=
  let dataset : Option Dataset :=
    if demo then some (buildSampleDataset env today now) else none
  let dataset : Option Dataset :=
    match dataset with
    | none => fetchLiveData yf now
    | some d => some d
  match dataset with
  | none => buildSampleDataset env today now
  | some d => d

end Script

/-- A concrete synthesis environment (all perturbations zero), used to
instantiate theorems at a specific input. -/
def constEnv : SynthEnv := ⟨fun _ => 0, fun _ => 0⟩

/-- A concrete provider whose every symbol has a one-row history and no
shares information, used to instantiate a successful live fetch. -/
def unitProvider : String → TickerData :=
  fun _ => { rows := [(0, some 1)], fast_info := none, infoSharesOutstanding := none }

/-- A concrete provider whose every symbol has an empty history. -/
def emptyProvider : String → TickerData :=
  fun _ => { rows := [], fast_info := none, infoSharesOutstanding := none }

/-- Replace the `lastUpdated` stamp of a dataset, leaving every other field
alone.  Two datasets serialize byte-identically outside the `lastUpdated`
field exactly when `setLastUpdated` maps one to the other. -/
def setLastUpdated (d : Dataset) (t : ℤ) : Dataset := { d with lastUpdated := t }

/-- The structural skeleton of a serialized dataset: which keys the
`series` and `sentiment` maps hold, which fields the `metadata` object
carries, and which bagholder entries exist.  All remaining structure is
fixed by the record types themselves (nullable fields serialize as `null`
with their key present). -/
structure DatasetShape where
  seriesKeys : List String
  sentimentKeys : List String
  metadataFields : List String
  bagholderSymbols : List String
  deriving DecidableEq, Inhabited

/-- Compute the structural skeleton of a dataset. -/
def shapeOf (d : Dataset) : DatasetShape :=
  { seriesKeys := d.series.map Prod.fst
    sentimentKeys := d.sentiment.map Prod.fst
    metadataFields :=
      "source" :: (match d.metadata.note with | none => [] | some _ => ["note"])
    bagholderSymbols := d.bagholders.map (fun b => b.symbol) }

/-! Basic lemmas about the rounding model and the price walks. -/

/-- Banker's rounding never drops below an integer lower bound. -/
theorem roundHalfEven_ge (n : ℤ) (q : ℚ) (h : (n : ℚ) ≤ q) : n ≤ roundHalfEven q := by
  have hfl : n ≤ ⌊q⌋ := Int.le_floor.mpr h
  unfold roundHalfEven
  split
  · split
    · exact hfl
    · omega
  · rw [round_eq]
    have h2 : ⌊q⌋ ≤ ⌊q + 1 / 2⌋ := Int.floor_le_floor (by linarith)
    omega

/-- Two-decimal banker's rounding never drops below a bound that is itself
a multiple of one hundredth. -/
theorem le_pyRound2 (n : ℤ) (q : ℚ) (h : (n : ℚ) / 100 ≤ q) :
    (n : ℚ) / 100 ≤ pyRound2 q := by
  have h1 : (n : ℚ) ≤ q * 100 := by linarith
  have h2 : n ≤ roundHalfEven (q * 100) := roundHalfEven_ge n _ h1
  have h3 : (n : ℚ) ≤ (roundHalfEven (q * 100) : ℚ) := by exact_mod_cast h2
  unfold pyRound2
  linarith

/-- Rounding a price that is at least 1 keeps it at least 1. -/
theorem one_le_pyRound2 (q : ℚ) (h : 1 ≤ q) : 1 ≤ pyRound2 q := by
  have h2 := le_pyRound2 100 q (by push_cast; linarith)
  push_cast at h2
  linarith

/-- Rounding a price that is at least one half keeps it at least one half. -/
theorem half_le_pyRound2 (q : ℚ) (h : 1 / 2 ≤ q) : 1 / 2 ≤ pyRound2 q := by
  have h2 := le_pyRound2 50 q (by push_cast; linarith)
  push_cast at h2
  linarith

/-- The price loop appends exactly one recorded price per day. -/
theorem foldl_primaryStep_length (env : SynthEnv) (i : ℕ) :
    ∀ (l : List ℕ) (b : ℚ) (acc : List ℚ),
      ((l.foldl (primaryStep env i) (b, acc)).2).length = acc.length + l.length := by
  intro l
  induction l with
  | nil => intro b acc; simp
  | cons d l ih =>
      intro b acc
      simp only [List.foldl_cons, primaryStep, List.length_cons]
      rw [ih]
      simp
      omega

/-- Every price the loop records is at least 1: each recorded value is the
two-decimal rounding of a price clamped at 1.0. -/
theorem foldl_primaryStep_ge_one (env : SynthEnv) (i : ℕ) :
    ∀ (l : List ℕ) (b : ℚ) (acc : List ℚ), (∀ p ∈ acc, 1 ≤ p) →
      ∀ p ∈ (l.foldl (primaryStep env i) (b, acc)).2, 1 ≤ p := by
  intro l
  induction l with
  | nil => intro b acc hacc; simpa using hacc
  | cons d l ih =>
      intro b acc hacc
      simp only [List.foldl_cons, primaryStep]
      refine ih _ _ ?_
      intro p hp
      rcases List.mem_append.mp hp with h | h
      · exact hacc p h
      · have hm : (1 : ℚ) ≤ max 1 (b * (1 + env.seasonal d + drift + env.noise (i * 366 + d))) :=
          le_max_left _ _
        simp only [List.mem_singleton] at h
        subst h
        exact one_le_pyRound2 _ hm

/-- `primaryPrices` always records 366 prices. -/
theorem primaryPrices_length (env : SynthEnv) (i : ℕ) (base : ℚ) :
    (primaryPrices env i base).length = 366 := by
  unfold primaryPrices
  rw [foldl_primaryStep_length]
  simp

/-- Every recorded sample price is at least 1. -/
theorem primaryPrices_ge_one (env : SynthEnv) (i : ℕ) (base : ℚ) :
    ∀ p ∈ primaryPrices env i base, 1 ≤ p := by
  unfold primaryPrices
  exact foldl_primaryStep_ge_one env i _ base [] (by simp)

/-- There are 366 sample timestamps. -/
theorem primaryTimestamps_length (today : ℤ) :
    (primaryTimestamps today).length = 366 := by
  rw [primaryTimestamps, List.length_map, List.length_range]

/-- The `i`-th sample timestamp is `today - 365 + i`. -/
theorem primaryTimestamps_getD (today : ℤ) (i : ℕ) (h : i < 366) :
    (primaryTimestamps today).getD i 0 = today - 365 + i := by
  rw [primaryTimestamps, List.getD_eq_getElem?_getD, List.getElem?_map,
    List.getElem?_range h]
  rfl

/-- Python's negative index `l[-(i + 1)]`, i.e. `l.reverse.getD i`, equals
`l.getD (l.length - (i + 1))` when `i` is in range. -/
theorem reverse_getD (l : List ℚ) (i : ℕ) (d : ℚ) (h : i < l.length) :
    l.reverse.getD i d = l.getD (l.length - (i + 1)) d := by
  rw [List.getD_eq_getElem _ _ (by simpa using h),
    List.getD_eq_getElem _ _ (by omega), List.getElem_reverse]
  have he : l.length - 1 - i = l.length - (i + 1) := by omega
  simp only [he]

/-- Python's `l[-1]` read through `getLast?` equals `l.getD (l.length - 1)`. -/
theorem getLast?_getD_eq_getD (l : List ℚ) (d : ℚ) :
    l.getLast?.getD d = l.getD (l.length - 1) d := by
  rw [List.getLast?_eq_getElem? l, ← List.getD_eq_getElem?_getD]

/-- Claim C2: `_change_pct(series, days)` returns 0.0 when
`len(series) <= days` or when the reference price `series[-(days+1)]` is 0,
and otherwise returns `((series[-1] - series[-(days+1)]) / series[-(days+1)])
* 100` rounded to 2 decimal places (banker's rounding). -/
theorem change_pct_spec (series : List ℚ) (days : ℕ) :
    (series.length ≤ days → change_pct series days = 0) ∧
    (days < series.length →
      (series.reverse.getD days 0 = 0 → change_pct series days = 0) ∧
      (series.reverse.getD days 0 ≠ 0 →
        change_pct series days =
          pyRound2 ((series.getLast?.getD 0 - series.reverse.getD days 0) /
            series.reverse.getD days 0 * 100))) := by
  constructor
  · intro h
    rw [change_pct, if_pos h]
  · intro h
    have hpast : series.reverse.getD days 0 = series.getD (series.length - (days + 1)) 0 :=
      reverse_getD series days 0 h
    have hlast : series.getLast?.getD 0 = series.getD (series.length - 1) 0 :=
      getLast?_getD_eq_getD series 0
    rw [hpast, hlast]
    simp only [change_pct, if_neg (not_le.mpr h)]
    constructor
    · intro h0
      rw [if_pos h0]
    · intro h0
      rw [if_neg h0]

/-- Witness for C2 at a concrete input: `series = [1, 2, 4]`, `days = 1`,
where the reference price is 2 and the result is a rounded 100 percent. -/
theorem change_pct_spec_witness :
    1 < ([1, 2, 4] : List ℚ).length ∧
    ([1, 2, 4] : List ℚ).reverse.getD 1 0 ≠ 0 ∧
    change_pct [1, 2, 4] 1 =
      pyRound2 ((([1, 2, 4] : List ℚ).getLast?.getD 0 -
        ([1, 2, 4] : List ℚ).reverse.getD 1 0) /
        ([1, 2, 4] : List ℚ).reverse.getD 1 0 * 100) :=
  ⟨by decide, by decide,
    ((change_pct_spec [1, 2, 4] 1).2 (by decide)).2 (by decide)⟩

/-- The bagholder generator always produces 7 points. -/
theorem bagholderDowntrend_length (b : ℚ) (t : ℤ) :
    (bagholderDowntrend b t).length = 7 := by
  rw [bagholderDowntrend, List.length_map, List.length_range]

/-- The `k`-th bagholder point written out: `weeks_ago = 6 - k`. -/
theorem bagholderDowntrend_getD (b : ℚ) (t : ℤ) (k : ℕ) (h : k < 7) :
    (bagholderDowntrend b t).getD k default =
      { x := t - 7 * ((6 - k : ℕ) : ℤ)
        y := pyRound2 (max (1 / 2) (b * (1 - 5 / 100 * ((6 : ℚ) - ((6 - k : ℕ) : ℚ))))) } := by
  rw [bagholderDowntrend, List.getD_eq_getElem?_getD, List.getElem?_map, List.getElem?_range h]
  rfl

/-- The date of the `k`-th bagholder point is `today` minus `6 - k` weeks. -/
theorem bagholderDowntrend_x (b : ℚ) (t : ℤ) (k : ℕ) (h : k < 7) :
    ((bagholderDowntrend b t).getD k default).x = t - 7 * (6 - (k : ℤ)) := by
  rw [bagholderDowntrend_getD b t k h]
  have he : ((6 - k : ℕ) : ℤ) = 6 - (k : ℤ) := by omega
  rw [he]

/-- The value of the `k`-th bagholder point: discount `0.05 * k` on the
base price, floored at one half, rounded to two decimals. -/
theorem bagholderDowntrend_y (b : ℚ) (t : ℤ) (k : ℕ) (h : k < 7) :
    ((bagholderDowntrend b t).getD k default).y =
      pyRound2 (max (1 / 2) (b * (1 - 5 / 100 * (k : ℚ)))) := by
  rw [bagholderDowntrend_getD b t k h]
  have hk : k ≤ 6 := by omega
  have he : ((6 - k : ℕ) : ℚ) = 6 - (k : ℚ) := by
    push_cast [hk]
    ring
  simp only
  rw [he]
  ring_nf

/-- Every entry of the sample `series` map is the record built from one
enumerated ticker. -/
theorem mem_sample_series (env : SynthEnv) (today now : ℤ) (sr : String × SeriesRecord)
    (h : sr ∈ (buildSampleDataset env today now).series) :
    ∃ p ∈ TICKERS.enum, sr = (p.2.1, sampleSeriesRecord env p.1 p.2.1 p.2.2 today) := by
  obtain ⟨p, hp, he⟩ := List.mem_map.mp h
  exact ⟨p, hp, he.symm⟩

/-- Claim C3: every run of the synthesizer gives each of the 5 primary
symbols a series with exactly 366 prices and exactly 366 timestamps, and
the timestamps are strictly increasing, one day apart, from `today - 365`
up to `today` (the year ending today). -/
theorem sample_primary_series_shape (env : SynthEnv) (today now : ℤ) :
    (buildSampleDataset env today now).series.length = 5 ∧
    ∀ sr ∈ (buildSampleDataset env today now).series,
      sr.2.closes.length = 366 ∧
      sr.2.timestamps.length = 366 ∧
      (∀ i : ℕ, i + 1 < 366 →
        sr.2.timestamps.getD i 0 < sr.2.timestamps.getD (i + 1) 0 ∧
        sr.2.timestamps.getD (i + 1) 0 = sr.2.timestamps.getD i 0 + 1) ∧
      sr.2.timestamps.getD 0 0 = today - 365 ∧
      sr.2.timestamps.getD 365 0 = today := by
  constructor
  · simp [buildSampleDataset, TICKERS]
  · intro sr hsr
    obtain ⟨p, hp, he⟩ := mem_sample_series env today now sr hsr
    subst he
    refine ⟨?_, ?_, ?_, ?_, ?_⟩
    · simpa [sampleSeriesRecord] using primaryPrices_length env p.1 p.2.2
    · simpa [sampleSeriesRecord] using primaryTimestamps_length today
    · intro i hi
      have e1 := primaryTimestamps_getD today i (by omega)
      have e2 := primaryTimestamps_getD today (i + 1) (by omega)
      constructor
      · show (primaryTimestamps today).getD i 0 < (primaryTimestamps today).getD (i + 1) 0
        rw [e1, e2]
        push_cast
        omega
      · show (primaryTimestamps today).getD (i + 1) 0 = (primaryTimestamps today).getD i 0 + 1
        rw [e1, e2]
        push_cast
        omega
    · show (primaryTimestamps today).getD 0 0 = today - 365
      rw [primaryTimestamps_getD today 0 (by omega)]
      push_cast
      omega
    · show (primaryTimestamps today).getD 365 0 = today
      rw [primaryTimestamps_getD today 365 (by omega)]
      push_cast
      omega

/-- Witness for C3 at a concrete input: the NVDA entry of a concrete
sample run, with the day-step instantiated at `i = 0`. -/
theorem sample_primary_series_shape_witness :
    ("NVDA", sampleSeriesRecord constEnv 0 "NVDA" 140 0) ∈
      (buildSampleDataset constEnv 0 0).series ∧
    (0 : ℕ) + 1 < 366 ∧
    (sampleSeriesRecord constEnv 0 "NVDA" 140 0).closes.length = 366 ∧
    (sampleSeriesRecord constEnv 0 "NVDA" 140 0).timestamps.getD 1 0 =
      (sampleSeriesRecord constEnv 0 "NVDA" 140 0).timestamps.getD 0 0 + 1 := by
  have hm : ("NVDA", sampleSeriesRecord constEnv 0 "NVDA" 140 0) ∈
      (buildSampleDataset constEnv 0 0).series :=
    List.mem_map.mpr ⟨(0, ("NVDA", 140)), by decide, rfl⟩
  have h := (sample_primary_series_shape constEnv 0 0).2 _ hm
  exact ⟨hm, by omega, h.1, (h.2.2.1 0 (by omega)).2⟩

/-- Banker's rounding never exceeds the floor plus one. -/
theorem roundHalfEven_le_floor_add_one (q : ℚ) : roundHalfEven q ≤ ⌊q⌋ + 1 := by
  unfold roundHalfEven
  split_ifs with h1 h2
  · omega
  · omega
  · rw [round_eq]
    have h3 := Int.floor_le_floor (show q + 1 / 2 ≤ q + 1 by linarith)
    rw [Int.floor_add_one] at h3
    omega

/-- Two-decimal rounding moves a value up by at most one hundredth. -/
theorem pyRound2_le_add (q : ℚ) : pyRound2 q ≤ q + 1 / 100 := by
  have h1 : roundHalfEven (q * 100) ≤ ⌊q * 100⌋ + 1 := roundHalfEven_le_floor_add_one _
  have h2 : (⌊q * 100⌋ : ℚ) ≤ q * 100 := Int.floor_le _
  have h3 : ((roundHalfEven (q * 100)) : ℚ) ≤ (⌊q * 100⌋ : ℚ) + 1 := by exact_mod_cast h1
  unfold pyRound2
  linarith

/-- Two-decimal rounding moves a value down by at most one hundredth. -/
theorem sub_le_pyRound2 (q : ℚ) : q - 1 / 100 ≤ pyRound2 q := by
  have h1 := roundHalfEven_ge ⌊q * 100⌋ (q * 100) (Int.floor_le _)
  have h2 : q * 100 - 1 < (⌊q * 100⌋ : ℚ) := by linarith [Int.lt_floor_add_one (q * 100)]
  have h3 : (⌊q * 100⌋ : ℚ) ≤ ((roundHalfEven (q * 100)) : ℚ) := by exact_mod_cast h1
  unfold pyRound2
  linarith

/-- Claim C4: every run of the synthesizer gives each of the 2 bagholder
series exactly 7 points, with dates strictly increasing one week (7 days)
apart, values monotonically non-increasing, and the `k`-th value (oldest
first) carrying a discount of `0.05 * k` on the symbol's base price. -/
theorem sample_bagholder_series_shape (env : SynthEnv) (today now : ℤ) :
    (buildSampleDataset env today now).bagholders.length = 2 ∧
    ∀ bh ∈ (buildSampleDataset env today now).bagholders,
      bh.data.length = 7 ∧
      (∀ i : ℕ, i + 1 < 7 →
        (bh.data.getD (i + 1) default).x = (bh.data.getD i default).x + 7 ∧
        (bh.data.getD (i + 1) default).y ≤ (bh.data.getD i default).y) ∧
      ∃ base : ℚ,
        (bh.symbol, base) ∈ BAGHOLDER_TICKERS.map (fun q => (q.1, q.2.base)) ∧
        ∀ k : ℕ, k < 7 →
          (bh.data.getD k default).y = pyRound2 (base * (1 - 5 / 100 * (k : ℚ))) := by
  constructor
  · simp [buildSampleDataset, BAGHOLDER_TICKERS]
  · intro bh hbh
    obtain ⟨p, hp, he⟩ := List.mem_map.mp hbh
    subst he
    have hp2 : p = ("CRWV", ⟨85 / 10, "#ef4444", "CoreWeave"⟩) ∨
        p = ("NBIS", ⟨12, "#22c55e", "Nebius"⟩) := by
      simpa [BAGHOLDER_TICKERS] using hp
    rcases hp2 with rfl | rfl
    · dsimp only
      refine ⟨bagholderDowntrend_length _ _, ?_, 85 / 10, by simp [BAGHOLDER_TICKERS], ?_⟩
      · intro i hi
        have hi5 : ((i : ℚ)) ≤ 5 := by exact_mod_cast (by omega : i ≤ 5)
        have hc : ((i + 1 : ℕ) : ℚ) = (i : ℚ) + 1 := by push_cast; ring
        constructor
        · rw [bagholderDowntrend_x (85 / 10) today (i + 1) (by omega),
            bagholderDowntrend_x (85 / 10) today i (by omega)]
          push_cast
          ring
        · rw [bagholderDowntrend_y (85 / 10) today (i + 1) (by omega),
            bagholderDowntrend_y (85 / 10) today i (by omega), hc,
            max_eq_right (by linarith), max_eq_right (by linarith)]
          have hA := pyRound2_le_add ((85 : ℚ) / 10 * (1 - 5 / 100 * ((i : ℚ) + 1)))
          have hB := sub_le_pyRound2 ((85 : ℚ) / 10 * (1 - 5 / 100 * (i : ℚ)))
          linarith
      · intro k hk
        have hk6 : ((k : ℚ)) ≤ 6 := by exact_mod_cast (by omega : k ≤ 6)
        rw [bagholderDowntrend_y (85 / 10) today k hk, max_eq_right (by linarith)]
    · dsimp only
      refine ⟨bagholderDowntrend_length _ _, ?_, 12, by simp [BAGHOLDER_TICKERS], ?_⟩
      · intro i hi
        have hi5 : ((i : ℚ)) ≤ 5 := by exact_mod_cast (by omega : i ≤ 5)
        have hc : ((i + 1 : ℕ) : ℚ) = (i : ℚ) + 1 := by push_cast; ring
        constructor
        · rw [bagholderDowntrend_x 12 today (i + 1) (by omega),
            bagholderDowntrend_x 12 today i (by omega)]
          push_cast
          ring
        · rw [bagholderDowntrend_y 12 today (i + 1) (by omega),
            bagholderDowntrend_y 12 today i (by omega), hc,
            max_eq_right (by linarith), max_eq_right (by linarith)]
          have hA := pyRound2_le_add ((12 : ℚ) * (1 - 5 / 100 * ((i : ℚ) + 1)))
          have hB := sub_le_pyRound2 ((12 : ℚ) * (1 - 5 / 100 * (i : ℚ)))
          linarith
      · intro k hk
        have hk6 : ((k : ℚ)) ≤ 6 := by exact_mod_cast (by omega : k ≤ 6)
        rw [bagholderDowntrend_y 12 today k hk, max_eq_right (by linarith)]

/-- Witness for C4 at a concrete input: the CRWV entry of a concrete
sample run, with the week-step instantiated at `i = 0`. -/
theorem sample_bagholder_series_shape_witness :
    (⟨"CRWV", "CoreWeave", "#ef4444", bagholderDowntrend (85 / 10) 0⟩ : BagholderSeries) ∈
      (buildSampleDataset constEnv 0 0).bagholders ∧
    (0 : ℕ) + 1 < 7 ∧
    ((bagholderDowntrend (85 / 10) 0).getD 1 default).x =
      ((bagholderDowntrend (85 / 10) 0).getD 0 default).x + 7 ∧
    ((bagholderDowntrend (85 / 10) 0).getD 1 default).y ≤
      ((bagholderDowntrend (85 / 10) 0).getD 0 default).y := by
  have hm : (⟨"CRWV", "CoreWeave", "#ef4444", bagholderDowntrend (85 / 10) 0⟩ : BagholderSeries) ∈
      (buildSampleDataset constEnv 0 0).bagholders :=
    List.mem_map.mpr ⟨("CRWV", ⟨85 / 10, "#ef4444", "CoreWeave"⟩), by simp [BAGHOLDER_TICKERS], rfl⟩
  have h := (sample_bagholder_series_shape constEnv 0 0).2 _ hm
  have h0 := h.2.1 0 (by omega)
  exact ⟨hm, by omega, h0.1, h0.2⟩

/-- Every bagholder point's value is at least one half: it is the rounding
of a price clamped at 0.5. -/
theorem bagholderDowntrend_mem_ge_half (b : ℚ) (t : ℤ) :
    ∀ pt ∈ bagholderDowntrend b t, 1 / 2 ≤ pt.y := by
  intro pt hpt
  rw [bagholderDowntrend] at hpt
  obtain ⟨k, hk, he⟩ := List.mem_map.mp hpt
  rw [← he]
  exact half_le_pyRound2 _ (le_max_left _ _)

/-- Claim C5: in every run of the synthesizer, every recorded primary
closing price is at least 1.0 and every bagholder value is at least 0.5. -/
theorem sample_price_floor (env : SynthEnv) (today now : ℤ) :
    (∀ sr ∈ (buildSampleDataset env today now).series, ∀ q ∈ sr.2.closes, 1 ≤ q) ∧
    (∀ bh ∈ (buildSampleDataset env today now).bagholders, ∀ pt ∈ bh.data, 1 / 2 ≤ pt.y) := by
  constructor
  · intro sr hsr q hq
    obtain ⟨p, hp, he⟩ := mem_sample_series env today now sr hsr
    subst he
    exact primaryPrices_ge_one env p.1 p.2.2 q hq
  · intro bh hbh pt hpt
    obtain ⟨p, hp, he⟩ := List.mem_map.mp hbh
    subst he
    exact bagholderDowntrend_mem_ge_half p.2.base today pt hpt

/-- Witness for C5 at a concrete input: the NVDA entry of a concrete run
satisfies the 1.0 floor on every close. -/
theorem sample_price_floor_witness :
    ("NVDA", sampleSeriesRecord constEnv 0 "NVDA" 140 0) ∈
      (buildSampleDataset constEnv 0 0).series ∧
    ∀ q ∈ (sampleSeriesRecord constEnv 0 "NVDA" 140 0).closes, 1 ≤ q := by
  have hm : ("NVDA", sampleSeriesRecord constEnv 0 "NVDA" 140 0) ∈
      (buildSampleDataset constEnv 0 0).series :=
    List.mem_map.mpr ⟨(0, ("NVDA", 140)), by decide, rfl⟩
  exact ⟨hm, (sample_price_floor constEnv 0 0).1 _ hm⟩

/-- Claim C10: for the two configured bagholder symbols (base prices 8.5
and 12.0) the 0.5 floor is unreachable: the raw discounted price is always
strictly above 0.5, the `max` clamp never alters it, and every generated
value equals the rounded un-clamped price and stays strictly above 0.5. -/
theorem bagholder_floor_unreachable (today : ℤ) :
    ∀ p ∈ BAGHOLDER_TICKERS, ∀ k : ℕ, k < 7 →
      1 / 2 < p.2.base * (1 - 5 / 100 * (k : ℚ)) ∧
      max (1 / 2) (p.2.base * (1 - 5 / 100 * (k : ℚ))) = p.2.base * (1 - 5 / 100 * (k : ℚ)) ∧
      ((bagholderDowntrend p.2.base today).getD k default).y =
        pyRound2 (p.2.base * (1 - 5 / 100 * (k : ℚ))) ∧
      1 / 2 < ((bagholderDowntrend p.2.base today).getD k default).y := by
  intro p hp k hk
  have hk6 : ((k : ℚ)) ≤ 6 := by exact_mod_cast (by omega : k ≤ 6)
  have hp2 : p = ("CRWV", ⟨85 / 10, "#ef4444", "CoreWeave"⟩) ∨
      p = ("NBIS", ⟨12, "#22c55e", "Nebius"⟩) := by
    simpa [BAGHOLDER_TICKERS] using hp
  rcases hp2 with rfl | rfl
  · dsimp only
    have h1 : (1 : ℚ) / 2 < 85 / 10 * (1 - 5 / 100 * (k : ℚ)) := by linarith
    refine ⟨h1, max_eq_right h1.le, ?_, ?_⟩
    · rw [bagholderDowntrend_y (85 / 10) today k hk, max_eq_right h1.le]
    · rw [bagholderDowntrend_y (85 / 10) today k hk, max_eq_right h1.le]
      have h2 := sub_le_pyRound2 ((85 : ℚ) / 10 * (1 - 5 / 100 * (k : ℚ)))
      linarith
  · dsimp only
    have h1 : (1 : ℚ) / 2 < 12 * (1 - 5 / 100 * (k : ℚ)) := by linarith
    refine ⟨h1, max_eq_right h1.le, ?_, ?_⟩
    · rw [bagholderDowntrend_y 12 today k hk, max_eq_right h1.le]
    · rw [bagholderDowntrend_y 12 today k hk, max_eq_right h1.le]
      have h2 := sub_le_pyRound2 ((12 : ℚ) * (1 - 5 / 100 * (k : ℚ)))
      linarith

/-- Witness for C10 at a concrete input: the CRWV entry at `k = 1`. -/
theorem bagholder_floor_unreachable_witness :
    (("CRWV", (⟨85 / 10, "#ef4444", "CoreWeave"⟩ : BagInfo)) ∈ BAGHOLDER_TICKERS) ∧
    (1 : ℕ) < 7 ∧
    1 / 2 < (85 / 10 : ℚ) * (1 - 5 / 100 * ((1 : ℕ) : ℚ)) ∧
    ((bagholderDowntrend (85 / 10) 0).getD 1 default).y =
      pyRound2 ((85 / 10 : ℚ) * (1 - 5 / 100 * ((1 : ℕ) : ℚ))) := by
  have h := bagholder_floor_unreachable 0 ("CRWV", ⟨85 / 10, "#ef4444", "CoreWeave"⟩)
    (by simp [BAGHOLDER_TICKERS]) 1 (by omega)
  exact ⟨by simp [BAGHOLDER_TICKERS], by omega, h.1, h.2.2.1⟩

/-- Claim C6: a demo-flag run performs no live fetch (its output does not
depend on the provider at all) and writes the sample dataset: metadata
source is "sample", with exactly 5 primary series and 2 bagholder series. -/
theorem demo_run_is_sample (yf : Option (String → TickerData)) (env : SynthEnv)
    (today now : ℤ) :
    Script.main true yf env today now = buildSampleDataset env today now ∧
    (Script.main true yf env today now).metadata.source = "sample" ∧
    (Script.main true yf env today now).series.length = 5 ∧
    (Script.main true yf env today now).bagholders.length = 2 ∧
    ∀ yf₂ : Option (String → TickerData),
      Script.main true yf env today now = Script.main true yf₂ env today now := by
  refine ⟨rfl, rfl, ?_, ?_, fun yf₂ => rfl⟩
  · show (buildSampleDataset env today now).series.length = 5
    simp [buildSampleDataset, TICKERS]
  · show (buildSampleDataset env today now).bagholders.length = 2
    simp [buildSampleDataset, BAGHOLDER_TICKERS]

/-- Claim C1: in a run that attempts the live fetch (demo flag off), if
the provider returns an empty one-year history for any symbol (primary or
secondary), the fetcher returns no dataset and the final output is the
full sample dataset. -/
theorem empty_history_falls_back_to_sample (provider : String → TickerData)
    (env : SynthEnv) (today now : ℤ)
    (h : ∃ s ∈ all_symbols, (provider s).rows = []) :
    fetchLiveData (some provider) now = none ∧
    Script.main false (some provider) env today now = buildSampleDataset env today now := by
  have hguard : all_symbols.any (fun s => (provider s).rows.isEmpty) = true := by
    obtain ⟨s, hs, he⟩ := h
    exact List.any_eq_true.mpr ⟨s, hs, by simp [he]⟩
  have h1 : fetchLiveData (some provider) now = none := by
    simp [fetchLiveData, hguard]
  exact ⟨h1, by simp [Script.main, h1]⟩

/-- Witness for C1: the all-empty provider loses every symbol and a
non-demo run ends in the sample dataset. -/
theorem empty_history_falls_back_to_sample_witness :
    (∃ s ∈ all_symbols, (emptyProvider s).rows = []) ∧
    fetchLiveData (some emptyProvider) 0 = none ∧
    Script.main false (some emptyProvider) constEnv 0 0 = buildSampleDataset constEnv 0 0 := by
  have hx : ∃ s ∈ all_symbols, (emptyProvider s).rows = [] :=
    ⟨"NVDA", by simp [all_symbols, TICKERS], rfl⟩
  have h := empty_history_falls_back_to_sample emptyProvider constEnv 0 0 hx
  exact ⟨hx, h.1, h.2⟩

/-- Claim C9: in every series record produced by the synthesizer or by a
successful live fetch, the timestamps and closes arrays have the same
length; in the live case both project the same retained history rows, so
the i-th timestamp belongs with the i-th close. -/
theorem series_arrays_parallel (env : SynthEnv) (today now : ℤ)
    (provider : String → TickerData) :
    (∀ sr ∈ (buildSampleDataset env today now).series,
      sr.2.timestamps.length = sr.2.closes.length) ∧
    (∀ sr ∈ (liveDataset provider now).series,
      sr.2.timestamps.length = sr.2.closes.length ∧
      ∃ rows : List (ℤ × ℚ),
        sr.2.timestamps = rows.map Prod.fst ∧ sr.2.closes = rows.map Prod.snd) ∧
    (∀ d : Dataset, fetchLiveData (some provider) now = some d →
      d = liveDataset provider now) := by
  refine ⟨?_, ?_, ?_⟩
  · intro sr hsr
    obtain ⟨p, hp, he⟩ := mem_sample_series env today now sr hsr
    subst he
    show (primaryTimestamps today).length = (primaryPrices env p.1 p.2.2).length
    rw [primaryTimestamps_length, primaryPrices_length]
  · intro sr hsr
    obtain ⟨s, hs, he⟩ := List.mem_map.mp hsr
    subst he
    refine ⟨?_, liveRows provider s, rfl, rfl⟩
    show ((liveRows provider s).map Prod.fst).length = ((liveRows provider s).map Prod.snd).length
    rw [List.length_map, List.length_map]
  · intro d hd
    simp only [fetchLiveData] at hd
    split at hd
    · cases hd
    · exact (Option.some_inj.mp hd).symm

/-- Witness for C9: the NVDA entries of a concrete sample run and of a
concrete successful live fetch. -/
theorem series_arrays_parallel_witness :
    ("NVDA", sampleSeriesRecord constEnv 0 "NVDA" 140 0) ∈
      (buildSampleDataset constEnv 0 0).series ∧
    ("NVDA", liveSeriesRecord unitProvider "NVDA") ∈
      (liveDataset unitProvider 0).series ∧
    fetchLiveData (some unitProvider) 0 = some (liveDataset unitProvider 0) ∧
    (sampleSeriesRecord constEnv 0 "NVDA" 140 0).timestamps.length =
      (sampleSeriesRecord constEnv 0 "NVDA" 140 0).closes.length ∧
    (liveSeriesRecord unitProvider "NVDA").timestamps.length =
      (liveSeriesRecord unitProvider "NVDA").closes.length := by
  have hm1 : ("NVDA", sampleSeriesRecord constEnv 0 "NVDA" 140 0) ∈
      (buildSampleDataset constEnv 0 0).series :=
    List.mem_map.mpr ⟨(0, ("NVDA", 140)), by decide, rfl⟩
  have hm2 : ("NVDA", liveSeriesRecord unitProvider "NVDA") ∈
      (liveDataset unitProvider 0).series :=
    List.mem_map.mpr ⟨"NVDA", by simp [TICKERS], rfl⟩
  have h := series_arrays_parallel constEnv 0 0 unitProvider
  exact ⟨hm1, hm2, rfl, h.1 _ hm1, (h.2.1 _ hm2).1⟩

/-- Claim C7 is false as stated: two synthesizer runs on different UTC
dates produce, from the same seeded randomness, datasets that differ in
the series timestamps, not only in `lastUpdated`.  Here both runs carry
the same `lastUpdated` stamp yet the datasets differ. -/
theorem sample_runs_differ_across_dates :
    setLastUpdated (buildSampleDataset constEnv 0 0)
      ((buildSampleDataset constEnv 1 0).lastUpdated) ≠
    buildSampleDataset constEnv 1 0 := by
  intro h
  have h2 := congrArg
    (fun d => ((d.series.getD 0 ("", default)).2.timestamps.getD 0 0)) h
  have e1 : (((setLastUpdated (buildSampleDataset constEnv 0 0)
      ((buildSampleDataset constEnv 1 0).lastUpdated)).series.getD 0
        ("", default)).2.timestamps.getD 0 0) = -365 := by
    show (primaryTimestamps 0).getD 0 0 = -365
    rw [primaryTimestamps_getD 0 0 (by omega)]
    norm_num
  have e2 : (((buildSampleDataset constEnv 1 0).series.getD 0
      ("", default)).2.timestamps.getD 0 0) = -364 := by
    show (primaryTimestamps 1).getD 0 0 = -364
    rw [primaryTimestamps_getD 1 0 (by omega)]
    norm_num
  simp only at h2
  rw [e1, e2] at h2
  exact absurd h2 (by decide)

/-- Claim C7 (amended): two synthesizer runs on the same UTC date produce,
from the fixed seed, identical datasets except for the `lastUpdated`
timestamp: overwriting it with the second run's stamp makes the outputs
equal byte for byte. -/
theorem sample_synthesis_deterministic (env : SynthEnv) (today now₁ now₂ : ℤ) :
    setLastUpdated (buildSampleDataset env today now₁) now₂ =
      buildSampleDataset env today now₂ := rfl

/-- Claim C8 is false as stated: the metadata object of a successful live
fetch has no `note` field while the sample metadata does, so the shape
skeletons differ. -/
theorem live_and_sample_shapes_differ :
    (fetchLiveData (some unitProvider) 0).map shapeOf ≠
      some (shapeOf (buildSampleDataset constEnv 0 0)) := by
  intro h
  have hf : (fetchLiveData (some unitProvider) 0).map shapeOf =
      some (shapeOf (liveDataset unitProvider 0)) := rfl
  rw [hf] at h
  have h2 := congrArg DatasetShape.metadataFields (Option.some_inj.mp h)
  have e1 : (shapeOf (liveDataset unitProvider 0)).metadataFields = ["source"] := rfl
  have e2 : (shapeOf (buildSampleDataset constEnv 0 0)).metadataFields =
      ["source", "note"] := rfl
  rw [e1, e2] at h2
  exact absurd h2 (by decide)

/-- Claim C8 (amended): a sample dataset and a successful live dataset
have the same shape skeleton except for the metadata object, where the
sample carries an extra `note` field: the series keys, sentiment keys and
bagholder entries coincide, while the metadata fields are `source` for
live and `source, note` for sample. -/
theorem live_and_sample_shapes_agree_except_note (env : SynthEnv)
    (today now nowL : ℤ) (provider : String → TickerData) (d : Dataset)
    (h : fetchLiveData (some provider) nowL = some d) :
    (shapeOf d).seriesKeys = (shapeOf (buildSampleDataset env today now)).seriesKeys ∧
    (shapeOf d).sentimentKeys = (shapeOf (buildSampleDataset env today now)).sentimentKeys ∧
    (shapeOf d).bagholderSymbols =
      (shapeOf (buildSampleDataset env today now)).bagholderSymbols ∧
    (shapeOf d).metadataFields = ["source"] ∧
    (shapeOf (buildSampleDataset env today now)).metadataFields = ["source", "note"] := by
  have hd : d = liveDataset provider nowL := by
    simp only [fetchLiveData] at h
    split at h
    · cases h
    · exact (Option.some_inj.mp h).symm
  subst hd
  have ha1 : (shapeOf (liveDataset provider nowL)).seriesKeys =
      ["NVDA", "MSFT", "GOOGL", "META", "AMZN"] := rfl
  have hb1 : (shapeOf (buildSampleDataset env today now)).seriesKeys =
      ["NVDA", "MSFT", "GOOGL", "META", "AMZN"] := rfl
  have ha2 : (shapeOf (liveDataset provider nowL)).sentimentKeys = ["NVDA"] := rfl
  have hb2 : (shapeOf (buildSampleDataset env today now)).sentimentKeys = ["NVDA"] := rfl
  have ha3 : (shapeOf (liveDataset provider nowL)).bagholderSymbols =
      ["CRWV", "NBIS"] := rfl
  have hb3 : (shapeOf (buildSampleDataset env today now)).bagholderSymbols =
      ["CRWV", "NBIS"] := rfl
  exact ⟨ha1.trans hb1.symm, ha2.trans hb2.symm, ha3.trans hb3.symm, rfl, rfl⟩

/-- Witness for the amended C8 at a concrete successful fetch. -/
theorem live_and_sample_shapes_agree_except_note_witness :
    fetchLiveData (some unitProvider) 0 = some (liveDataset unitProvider 0) ∧
    (shapeOf (liveDataset unitProvider 0)).seriesKeys =
      (shapeOf (buildSampleDataset constEnv 0 0)).seriesKeys ∧
    (shapeOf (liveDataset unitProvider 0)).metadataFields = ["source"] ∧
    (shapeOf (buildSampleDataset constEnv 0 0)).metadataFields = ["source", "note"] := by
  have hf : fetchLiveData (some unitProvider) 0 = some (liveDataset unitProvider 0) := rfl
  have h := live_and_sample_shapes_agree_except_note constEnv 0 0 0 unitProvider _ hf
  exact ⟨hf, h.1, h.2.2.2.1, h.2.2.2.2⟩
